import Mathlib

/-!
Verification of the job-lifecycle, batch-orchestration and prompt-chain logic
of the saroop-singh-newspaper-archive restoration service.

Shallow embedding of:
* `packages/restorations/python-restoration/api/process.py`
* `packages/restorations/python-restoration/api/status.py`
* `packages/restorations/python-restoration/api/webhook.py`
* `packages/restorations/python-restoration/scripts/airtable_restoration.py`

External effects (image download, generation, upload, record-store updates,
clocks, UUID generation) are passed in as explicit function parameters; the
job queue is an explicit list of job records threaded through each operation.
-/

namespace ArchiveRestoration

/-- Result payload attached to a job on reaching a terminal state.  In the
source it is a plain dict: `{'status','result_url','completed_at'}` on success
(process.py lines 132-136), `{'error': str(e)}` on failure (line 152).  It is
modelled as a record of optional fields so that "both result kinds populated"
is expressible. -/
structure JobResult where
  result_url : Option String := none
  completed_at : Option String := none
  error : Option String := none
  deriving Repr, DecidableEq

/-- A job record as stored in the queue: the dict built in
`process.py` (lines 37-44 and 75-83) and `webhook.py` (lines 124-139). -/
structure Job where
  job_id : String
  batch_id : Option String := none
  airtable_record_id : Option String := none
  status : String
  created_at : String := ""
  image_url : String
  restoration_type : String := "standard"
  priority : String := "normal"
  result : Option JobResult := none
  deriving Repr, DecidableEq

/-- Modelled from the spec: `lib/queue_manager.py` (class `QueueManager`) is
not under src/; spec section 4.4 (JobStore) gives
`update_status(job_id, status, result=None)`, which sets the job's status and,
when a result is supplied, attaches it.  The store is the list of job
records. -/
def update_job_status (store : List Job) (jid status : String)
    (result : Option JobResult) : List Job :=
  store.map fun j =>
    if j.job_id == jid then
      { j with status := status,
               result := match result with
                         | none => j.result
                         | some r => some r }
    else j

/-- Modelled from the spec: section 4.4 (JobStore) `get(job_id) -> job|null`. -/
def get_job (store : List Job) (jid : String) : Option Job :=
  store.find? fun j => j.job_id == jid

/-- Modelled from the spec: section 4.4 (JobStore) `add(job)` persists a new
job record. -/
def add_job (store : List Job) (j : Job) : List Job :=
  store ++ [j]

/-! ## Batch status aggregation (`api/status.py`, `get_batch_status`) -/

/-- Python `round(x, 2)`: round to two decimal places.  (Half-way cases,
where Python rounds the nearest binary float half-to-even, do not arise at
the rationals used in the claims; half-up is used here.) -/
def round2 (q : ℚ) : ℚ := (⌊q * 100 + 1/2⌋ : ℚ) / 100

/-- One bucket of the `status_counts` dict (status.py lines 86-96): the
number of member jobs whose `status` equals `s`. -/
def count_status (jobs : List Job) (s : String) : Nat :=
  jobs.countP fun j => j.status == s

/-- The aggregate returned by `get_batch_status` (status.py lines 120-137),
restricted to the fields the claims are about. -/
structure BatchAggregate where
  overall_status : String
  progress_percentage : ℚ
  total_jobs : Nat
  queued_count : Nat
  processing_count : Nat
  completed_count : Nat
  failed_count : Nat
  deriving Repr, DecidableEq

/-- Function `StatusHandler.get_batch_status` (status.py lines 74-137) on the list of
member jobs.  An empty batch hits the `if not batch_jobs` guard (line 79) and
returns the `'Batch not found'` error instead of an aggregate — modelled as
`none`. -/
def get_batch_status (jobs : List Job) : Option BatchAggregate :=
  match jobs with
  | [] => none
  | _ :: _ =>
    let queued := count_status jobs "queued"
    let processing := count_status jobs "processing"
    let completed := count_status jobs "completed"
    let failed := count_status jobs "failed"
    let total := jobs.length
    let progress : ℚ := if total > 0 then ((completed : ℚ) / (total : ℚ)) * 100 else 0
    let overall :=
      if failed = total then "failed"
      else if completed = total then "completed"
      else if 0 < processing ∨ 0 < queued then "processing"
      else "unknown"
    some { overall_status := overall
           progress_percentage := round2 progress
           total_jobs := total
           queued_count := queued
           processing_count := processing
           completed_count := completed
           failed_count := failed }

/-! ## Restoration pipeline (`api/process.py`) -/

/-- Observable events of one pipeline/batch run, in program order. -/
inductive Ev where
  | jobCreated (jid status : String)
  | statusUpdate (jid status : String)
  | fetch (url : String)
  | generate
  | upload (jid : String)
  | recordUpdate (record_id status : String)
  | attempt (jid : String)
  deriving Repr, DecidableEq

/-- The pipeline's external collaborators (`StorageManager.download_image`,
`GeminiProcessor.restore_image`, `StorageManager.upload_result`,
`AirtableClient.update_restoration_status`, and the clock), each of which may
raise; they are passed in as explicit functions. -/
structure PipeEnv where
  download : String → Except String String
  restore : String → String → Except String String
  upload : String → String → Except String String
  airtableUpdate : String → String → String → Except String Unit
  now : String

/-- The `except` block of `ProcessHandler._process_restoration`
(process.py lines 150-153): mark the job `failed` with the error string in
the result, then re-raise. -/
def fail_restoration (store : List Job) (jid e : String) (evs : List Ev) :
    Except String JobResult × List Job × List Ev :=
  (Except.error e,
   update_job_status store jid "failed" (some { error := some e }),
   evs ++ [Ev.statusUpdate jid "failed"])

/-- Function `ProcessHandler._process_restoration` (process.py lines 104-153): set the
job `processing`, download the image, restore it, upload the result, mark the
job `completed`, and, when the job carries an `airtable_record_id`, push the
completion to Airtable.  Any raising step falls into `fail_restoration`.  The
third component is the emitted event trace (each external call is recorded at
the point it is issued). -/
def process_restoration (env : PipeEnv) (job : Job) (store : List Job) :
    Except String JobResult × List Job × List Ev :=
  let jid := job.job_id
  let store1 := update_job_status store jid "processing" none
  let evs1 := [Ev.statusUpdate jid "processing", Ev.fetch job.image_url]
  match env.download job.image_url with
  | .error e => fail_restoration store1 jid e evs1
  | .ok img =>
    let evs2 := evs1 ++ [Ev.generate]
    match env.restore img job.restoration_type with
    | .error e => fail_restoration store1 jid e evs2
    | .ok restored =>
      let evs3 := evs2 ++ [Ev.upload jid]
      match env.upload restored jid with
      | .error e => fail_restoration store1 jid e evs3
      | .ok result_url =>
        let res : JobResult :=
          { result_url := some result_url, completed_at := some env.now }
        let store2 := update_job_status store1 jid "completed" (some res)
        let evs4 := evs3 ++ [Ev.statusUpdate jid "completed"]
        match job.airtable_record_id with
        | none => (Except.ok res, store2, evs4)
        | some rid =>
          let evs5 := evs4 ++ [Ev.recordUpdate rid "completed"]
          match env.airtableUpdate rid "completed" result_url with
          | .ok _ => (Except.ok res, store2, evs5)
          | .error e => fail_restoration store2 jid e evs5

/-- The job dict built by `ProcessHandler.process_single_image`
(process.py lines 37-44).  Note the literal `'status': 'processing'` on
line 39. -/
def mk_single_job (job_id now image_url restoration_type : String) : Job :=
  { job_id := job_id
    status := "processing"
    created_at := now
    image_url := image_url
    restoration_type := restoration_type }

/-- The response body of the single-image path. -/
structure SingleResponse where
  success : Bool
  job_id : Option String := none
  result : Option JobResult := none
  error : Option String := none
  deriving Repr, DecidableEq

/-- Function `ProcessHandler.process_single_image` (process.py lines 31-63): generate
a job id (passed in for `str(uuid.uuid4())`), build the job record, enqueue
it, and run `_process_restoration`; the outer `try` turns a raised error into
`{'success': False, 'error': ...}`. -/
def process_single_image (env : PipeEnv) (job_id image_url restoration_type : String)
    (store : List Job) : SingleResponse × List Job × List Ev :=
  let job := mk_single_job job_id env.now image_url restoration_type
  let store1 := add_job store job
  let evs0 := [Ev.jobCreated job_id job.status]
  match process_restoration env job store1 with
  | (.ok res, store2, evs) =>
    ({ success := true, job_id := some job_id, result := some res }, store2, evs0 ++ evs)
  | (.error e, store2, evs) =>
    ({ success := false, error := some e }, store2, evs0 ++ evs)

/-- The job dict built per image by `ProcessHandler.process_batch`
(process.py lines 75-83): status `'queued'`, tagged with the batch id. -/
def mk_batch_job (job_id batch_id now image_url restoration_type : String) : Job :=
  { job_id := job_id
    batch_id := some batch_id
    status := "queued"
    created_at := now
    image_url := image_url
    restoration_type := restoration_type }

/-- Function `ProcessHandler.process_batch` (process.py lines 65-95) up to the
background task: one fresh uuid for the batch (`uuid 0`) and one per image
(`uuid (k+1)` for the k-th image); every job is enqueued with status
`queued`.  Returns the job-id list and the updated store. -/
def process_batch (uuid : Nat → String) (now : String)
    (images : List (String × String)) (store : List Job) :
    List String × List Job :=
  let jobs := images.enum.map fun ki =>
    mk_batch_job (uuid (ki.1 + 1)) (uuid 0) now ki.2.1 ki.2.2
  (jobs.map (fun j => j.job_id), store ++ jobs)

/-- Function `ProcessHandler._process_batch_background` (process.py lines 155-164):
loop over the job ids, fetch each job and run `_process_restoration` on it.
The single `try/except` wraps the whole loop, so the first job whose
processing raises ends the loop — the error is logged and swallowed there. -/
def process_batch_background (env : PipeEnv) (jids : List String)
    (store : List Job) : List Job × List Ev :=
  match jids with
  | [] => (store, [])
  | jid :: rest =>
    match get_job store jid with
    | none => process_batch_background env rest store
    | some job =>
      match process_restoration env job store with
      | (.ok _, store1, evs) =>
        let srest := process_batch_background env rest store1
        (srest.1, Ev.attempt jid :: evs ++ srest.2)
      | (.error _, store1, evs) =>
        (store1, Ev.attempt jid :: evs)

/-! ## Webhook handling (`api/webhook.py`) -/

/-- Function `WebhookHandler.verify_webhook_signature` (webhook.py lines 32-44): with
no configured secret, return True ("allow in development"); otherwise compare
the header signature against the hex HMAC-SHA256 of the raw body under the
secret (`hmac.compare_digest` is equality in constant time).  The HMAC
primitive itself is a stdlib call and is passed in as a function. -/
def verify_webhook_signature (hmacSha256Hex : String → String → String)
    (webhook_secret : Option String) (request_body signature : String) : Bool :=
  match webhook_secret with
  | none => true
  | some secret => signature == hmacSha256Hex secret request_body

/-- One Airtable image attachment (the dicts iterated in webhook.py). -/
structure Attachment where
  id : String
  url : String
  filename : String := ""
  deriving Repr, DecidableEq

/-- The job id built by `WebhookHandler._process_attachment`
(webhook.py line 122): the f-string `f"{record_id}_{attachment['id']}"` —
deterministic, not a fresh uuid. -/
def attachment_job_id (record_id attachment_id : String) : String :=
  record_id ++ "_" ++ attachment_id

/-- The job dict built by `WebhookHandler._process_attachment`
(webhook.py lines 124-139). -/
def mk_attachment_job (record_id : String) (att : Attachment)
    (restoration_type priority now : String) : Job :=
  { job_id := attachment_job_id record_id att.id
    airtable_record_id := some record_id
    status := "queued"
    created_at := now
    image_url := att.url
    restoration_type := restoration_type
    priority := priority }

/-- Function `WebhookHandler._process_attachment` (webhook.py lines 119-152) restricted
to its store effect: enqueue the attachment's job. -/
def process_attachment (record_id : String) (att : Attachment)
    (restoration_type priority now : String) (store : List Job) : List Job :=
  add_job store (mk_attachment_job record_id att restoration_type priority now)

/-- The attachment loop of `WebhookHandler.handle_record_created`
(webhook.py lines 66-74): one job per attachment of the record. -/
def handle_record_created (record_id : String) (atts : List Attachment)
    (restoration_type priority now : String) (store : List Job) : List Job :=
  atts.foldl
    (fun s att => process_attachment record_id att restoration_type priority now s)
    store

/-- The POST branch of webhook.py's `handler` (lines 207-249): verify the
signature first; on mismatch answer 401 and touch nothing; otherwise
dispatch (here: the `record_created` path, with the parsed payload passed in
as `record_id`/`atts`).  Returns the HTTP status code and the store. -/
def webhook_post (hmacSha256Hex : String → String → String)
    (webhook_secret : Option String) (request_body signature : String)
    (record_id : String) (atts : List Attachment)
    (restoration_type priority now : String) (store : List Job) :
    Nat × List Job :=
  if verify_webhook_signature hmacSha256Hex webhook_secret request_body signature then
    (200, handle_record_created record_id atts restoration_type priority now store)
  else
    (401, store)

/-! ## Prompt chains (`scripts/airtable_restoration.py`) -/

/-- A prompt step (dataclass `Prompt`), restricted to the fields the chain
runner inspects. -/
structure Prompt where
  id : String
  name : String
  slug : String
  workflow_type : String := "Standalone"
  deriving Repr, DecidableEq

/-- Field `part.inline_data` of a generation-response part. -/
structure InlinePart where
  mime_type : String
  data : String
  deriving Repr, DecidableEq

/-- One part of a generation-response candidate. -/
structure Part where
  inline_data : Option InlinePart := none
  deriving Repr, DecidableEq

/-- One candidate of a generation response. -/
structure Candidate where
  parts : List Part
  deriving Repr, DecidableEq

/-- A generation response as consumed by `extract_images`. -/
structure GenResponse where
  candidates : List Candidate
  deriving Repr, DecidableEq

/-- The inner filter of `GeminiProcessor.extract_images`
(airtable_restoration.py lines 278-281): keep a part's payload when it has
`inline_data` with an `image/...` mime type (`base64.b64decode` is modelled
as carrying the decoded bytes in `data` directly). -/
def extract_part (p : Part) : List String :=
  match p.inline_data with
  | some d => if d.mime_type.startsWith "image/" then [d.data] else []
  | none => []

/-- Function `GeminiProcessor.extract_images` (airtable_restoration.py lines 271-283):
the nested candidate/part loops appending every inline image payload. -/
def extract_images (r : GenResponse) : List String :=
  r.candidates.foldl
    (fun acc c => c.parts.foldl (fun a p => a ++ extract_part p) acc)
    []

/-- The output file path `f"{photo.id}_{prompt.slug}_{j+1}.png"` under the
pipeline's output directory (airtable_restoration.py lines 358-359). -/
def output_path (photo_id slug : String) (j : Nat) : String :=
  "generated/airtable_restorations/" ++ photo_id ++ "_" ++ slug ++ "_"
    ++ toString (j + 1) ++ ".png"

/-- The `saved_paths` list of one chain step (airtable_restoration.py
lines 356-361): one written file per extracted image, in order. -/
def save_paths (photo_id slug : String) (images : List String) : List String :=
  (List.range images.length).map fun j => output_path photo_id slug j

/-- The `current_image_url` update inside the save loop
(airtable_restoration.py lines 363-367): only at `j == 0`, and only when
`i < len(prompts) - 1`, does the first output become the next step's input. -/
def chain_next_input (photo_id : String) (p : Prompt) (images : List String)
    (i n : Nat) (cur : String) : String :=
  match images with
  | [] => cur
  | _ :: _ => if i < n - 1 then "file://" ++ output_path photo_id p.slug 0 else cur

/-- One entry of `results['prompts_executed']` (airtable_restoration.py
lines 370-376 on success, 386-391 on failure). -/
structure StepResult where
  prompt_id : String
  prompt_name : String
  execution_time : Nat := 0
  outputs : List String := []
  success : Bool
  error : Option String := none
  deriving Repr, DecidableEq

/-- One execution record written by `RestorationPipeline.log_test_run`
(airtable_restoration.py lines 403-427) to the test-runs table. -/
structure TestRunLog where
  prompt_id : String
  execution_time : Nat
  success : Bool
  notes : Option String := none
  deriving Repr, DecidableEq

/-- The step loop of `RestorationPipeline.run_prompt_chain`
(airtable_restoration.py lines 341-399).  `gen` is
`GeminiProcessor.process_image` followed by nothing (the response is handed
to `extract_images` here); it may raise.  `i` is the loop index, `n` the full
chain length, `cur` the current input image reference.  Returns
(`prompts_executed`, `outputs`, execution records logged).  On a raising
step: record the failure, log it, and break out of the loop iff the step's
`workflow_type` is `"Sequential"`. -/
def run_steps (gen : String → Prompt → Except String (GenResponse × Nat))
    (photo_id : String) (n : Nat) :
    Nat → String → List Prompt → List StepResult × List String × List TestRunLog
  | _, _, [] => ([], [], [])
  | i, cur, p :: rest =>
    match gen cur p with
    | .ok (resp, t) =>
      let imgs := extract_images resp
      let paths := save_paths photo_id p.slug imgs
      let cur1 := chain_next_input photo_id p imgs i n cur
      let sr : StepResult :=
        { prompt_id := p.id, prompt_name := p.name, execution_time := t,
          outputs := paths, success := true }
      let lg : TestRunLog := { prompt_id := p.id, execution_time := t, success := true }
      let srest := run_steps gen photo_id n (i + 1) cur1 rest
      (sr :: srest.1, paths ++ srest.2.1, lg :: srest.2.2)
    | .error e =>
      let sr : StepResult :=
        { prompt_id := p.id, prompt_name := p.name, success := false, error := some e }
      let lg : TestRunLog :=
        { prompt_id := p.id, execution_time := 0, success := false, notes := some e }
      if p.workflow_type == "Sequential" then ([sr], [], [lg])
      else
        let srest := run_steps gen photo_id n (i + 1) cur rest
        (sr :: srest.1, srest.2.1, lg :: srest.2.2)

/-- A photo-gallery record (dataclass `PhotoRecord`), restricted to what the
chain runner reads. -/
structure PhotoRecord where
  id : String
  name : String
  attachments : List Attachment
  deriving Repr, DecidableEq

/-- Method `PhotoRecord.get_first_image_url` (airtable_restoration.py
lines 125-129). -/
def get_first_image_url (ph : PhotoRecord) : Option String :=
  match ph.attachments with
  | [] => none
  | a :: _ => some a.url

/-- The chain-level result dict of `run_prompt_chain`, restricted to the
claims' fields. -/
structure ChainResult where
  photo_id : String
  prompts_executed : List StepResult
  outputs : List String
  deriving Repr, DecidableEq

/-- Function `RestorationPipeline.run_prompt_chain` (airtable_restoration.py
lines 324-401): raise when the photo has no image, else run the step loop
from index 0 on the first attachment's url. -/
def run_prompt_chain (gen : String → Prompt → Except String (GenResponse × Nat))
    (photo : PhotoRecord) (prompts : List Prompt) :
    Except String (ChainResult × List TestRunLog) :=
  match get_first_image_url photo with
  | none => .error ("No image found for photo " ++ photo.name)
  | some url =>
    let r := run_steps gen photo.id prompts.length 0 url prompts
    .ok ({ photo_id := photo.id, prompts_executed := r.1, outputs := r.2.1 }, r.2.2)

/-! ## Property vocabulary -/

/-- Decidable test: the event is an image fetch. -/
def is_fetch_ev : Ev → Bool
  | .fetch _ => true
  | _ => false

/-- Decidable test: the event is a generation call. -/
def is_generate_ev : Ev → Bool
  | .generate => true
  | _ => false

/-- Decidable test: the event is a result upload. -/
def is_upload_ev : Ev → Bool
  | .upload _ => true
  | _ => false

/-- Decidable test: the event is an external-record (Airtable) update. -/
def is_record_update_ev : Ev → Bool
  | .recordUpdate _ _ => true
  | _ => false

/-- A job is in exactly one terminal state, with the matching result kind and
never both result kinds: `completed` with a `result_url` and no `error`, or
`failed` with an `error` and no `result_url`. -/
def terminal_exclusive (j : Job) : Bool :=
  (j.status == "completed" &&
    (match j.result with
     | some r => r.result_url.isSome && r.error == none
     | none => false))
  || (j.status == "failed" &&
    (match j.result with
     | some r => r.error.isSome && r.result_url == none
     | none => false))

/-- Decidable test: the job status is one of the four breakdown buckets of
`get_batch_status`. -/
def bucket_status (j : Job) : Bool :=
  j.status == "queued" || j.status == "processing" ||
    j.status == "completed" || j.status == "failed"

/-! ## Concrete fixtures used by the witness theorems -/

/-- Fixture: a pipeline environment in which every external call succeeds. -/
def envOKW : PipeEnv :=
  { download := fun _ => Except.ok "imgbytes"
    restore := fun _ _ => Except.ok "restoredbytes"
    upload := fun _ _ => Except.ok "https://storage/restored.jpg"
    airtableUpdate := fun _ _ _ => Except.ok ()
    now := "2026-01-01T00:00:00" }

/-- Fixture: the image download raises. -/
def envDLFailW : PipeEnv := { envOKW with download := fun _ => Except.error "download boom" }

/-- Fixture: only the Airtable status push raises. -/
def envATFailW : PipeEnv :=
  { envOKW with airtableUpdate := fun _ _ _ => Except.error "airtable boom" }

/-- Fixture: a job that originates from an Airtable record. -/
def jobATW : Job :=
  { job_id := "J2", airtable_record_id := some "rec1", status := "queued",
    image_url := "https://img/2.jpg" }

/-- Fixture: two queued batch jobs. -/
def batchStoreW : List Job :=
  [{ job_id := "a", batch_id := some "b0", status := "queued", image_url := "https://img/a.jpg" },
   { job_id := "b", batch_id := some "b0", status := "queued", image_url := "https://img/b.jpg" }]

/-- Fixture: the first member of `batchStoreW`. -/
def jobAW : Job :=
  { job_id := "a", batch_id := some "b0", status := "queued", image_url := "https://img/a.jpg" }

/-- Fixture: an Airtable attachment. -/
def attW : Attachment := { id := "att1", url := "https://img/att1.jpg", filename := "att1.jpg" }

/-- Fixture: a batch member list with 2 completed jobs of 3. -/
def jobsW3 : List Job :=
  [{ job_id := "x1", status := "completed", image_url := "u1" },
   { job_id := "x2", status := "completed", image_url := "u2" },
   { job_id := "x3", status := "queued", image_url := "u3" }]

/-- Fixture: the aggregate `get_batch_status` computes for `jobsW3`
(progress 66.67). -/
def aggW3 : BatchAggregate :=
  { overall_status := "processing", progress_percentage := 6667/100, total_jobs := 3,
    queued_count := 1, processing_count := 0, completed_count := 2, failed_count := 0 }

/-- Fixture: a batch member list whose only job has a status outside the four
breakdown buckets. -/
def jobsCancelledW : List Job :=
  [{ job_id := "y1", status := "cancelled", image_url := "u1" },
   { job_id := "y2", status := "cancelled", image_url := "u2" }]

/-- Fixture: the aggregate `get_batch_status` computes for `jobsCancelledW`. -/
def aggCancelledW : BatchAggregate :=
  { overall_status := "unknown", progress_percentage := 0, total_jobs := 2,
    queued_count := 0, processing_count := 0, completed_count := 0, failed_count := 0 }

/-- Fixture: a generation response holding one inline image. -/
def respImgW : GenResponse :=
  { candidates := [{ parts := [{ inline_data := some { mime_type := "image/png", data := "IMG" } }] }] }

/-- Fixture: a generation response with one candidate part and no inline
image data (the model answered with text only). -/
def respTextW : GenResponse := { candidates := [{ parts := [{ inline_data := none }] }] }

/-- Fixture: chain steps of the sequential kind. -/
def pSeq1W : Prompt := { id := "1", name := "one", slug := "one", workflow_type := "Sequential" }

/-- Fixture: second sequential step. -/
def pSeq2W : Prompt := { id := "2", name := "two", slug := "two", workflow_type := "Sequential" }

/-- Fixture: third sequential step. -/
def pSeq3W : Prompt := { id := "3", name := "three", slug := "three", workflow_type := "Sequential" }

/-- Fixture: first standalone step. -/
def pStd1W : Prompt := { id := "1", name := "one", slug := "one", workflow_type := "Standalone" }

/-- Fixture: second standalone step. -/
def pStd2W : Prompt := { id := "2", name := "two", slug := "two", workflow_type := "Standalone" }

/-- Fixture: third standalone step. -/
def pStd3W : Prompt := { id := "3", name := "three", slug := "three", workflow_type := "Standalone" }

/-- Fixture: a generation function that raises exactly on the step with
prompt id "2" and returns one image otherwise. -/
def genFail2W : String → Prompt → Except String (GenResponse × Nat) :=
  fun _ p => if p.id == "2" then Except.error "gen boom" else Except.ok (respImgW, 1)

/-- Fixture: a generation function that always succeeds with a text-only
response (zero output images). -/
def genZeroW : String → Prompt → Except String (GenResponse × Nat) :=
  fun _ _ => Except.ok (respTextW, 5)

/-- Fixture: an HMAC stand-in. -/
def hmacW : String → String → String := fun secret body => secret ++ ":" ++ body

/-- Fixture: an injective uuid supply (`n` maps to `n` repetitions of `u`). -/
def uuidW : Nat → String := fun n => String.mk (List.replicate n 'u')

/-- Fixture: a two-image batch request. -/
def imagesW : List (String × String) :=
  [("https://img/a.jpg", "standard"), ("https://img/b.jpg", "enhanced")]

/-! ## Helper lemmas -/

/-- After an update that carries a result, every job in the store with the
updated id holds the new status and the new result. -/
theorem update_job_status_final (store : List Job) (jid s : String) (x : JobResult) :
    ∀ j ∈ update_job_status store jid s (some x), j.job_id = jid →
      j.status = s ∧ j.result = some x := by
  intro j hj hid
  simp only [update_job_status, List.mem_map] at hj
  obtain ⟨a, _, rfl⟩ := hj
  by_cases h : a.job_id == jid
  · simp [h]
  · simp [h] at hid ⊢
    exact absurd hid (by simpa using h)

/-- Updates never change the multiset of job ids. -/
theorem update_job_status_ids (store : List Job) (jid s : String) (r : Option JobResult) :
    (update_job_status store jid s r).map (fun j => j.job_id) =
      store.map fun j => j.job_id := by
  simp only [update_job_status, List.map_map]
  refine List.map_congr_left ?_
  intro a _
  by_cases h : a.job_id = jid <;> simp [h]

/-- The pipeline first flips the job to `processing` and then issues the
image fetch: these are the first two trace events of every run. -/
theorem restoration_trace_prefix (env : PipeEnv) (job : Job) (store : List Job) :
    (process_restoration env job store).2.2.take 2 =
      [Ev.statusUpdate job.job_id "processing", Ev.fetch job.image_url] := by
  simp only [process_restoration, fail_restoration]
  rcases env.download job.image_url with e | img
  · rfl
  · dsimp only
    rcases env.restore img job.restoration_type with e | restored
    · rfl
    · dsimp only
      rcases env.upload restored job.job_id with e | url
      · rfl
      · dsimp only
        rcases job.airtable_record_id with _ | rid
        · rfl
        · dsimp only
          rcases env.airtableUpdate rid "completed" url with e | u
          · rfl
          · rfl

/-- Exactly one download and at most one generation and one upload are
issued per run: the pipeline never retries a step. -/
theorem restoration_call_counts (env : PipeEnv) (job : Job) (store : List Job) :
    (process_restoration env job store).2.2.countP is_fetch_ev = 1 ∧
    (process_restoration env job store).2.2.countP is_generate_ev ≤ 1 ∧
    (process_restoration env job store).2.2.countP is_upload_ev ≤ 1 := by
  simp only [process_restoration, fail_restoration]
  rcases env.download job.image_url with e | img
  · simp [is_fetch_ev, is_generate_ev, is_upload_ev]
  · dsimp only
    rcases env.restore img job.restoration_type with e | restored
    · simp [is_fetch_ev, is_generate_ev, is_upload_ev]
    · dsimp only
      rcases env.upload restored job.job_id with e | url
      · simp [is_fetch_ev, is_generate_ev, is_upload_ev]
      · dsimp only
        rcases job.airtable_record_id with _ | rid
        · simp [is_fetch_ev, is_generate_ev, is_upload_ev]
        · dsimp only
          rcases env.airtableUpdate rid "completed" url with e | u
          · simp [is_fetch_ev, is_generate_ev, is_upload_ev]
          · simp [is_fetch_ev, is_generate_ev, is_upload_ev]

/-- No batch `attempt` marker is emitted inside a single restoration run. -/
theorem restoration_no_attempt (env : PipeEnv) (job : Job) (store : List Job) (x : String) :
    Ev.attempt x ∉ (process_restoration env job store).2.2 := by
  simp only [process_restoration, fail_restoration]
  rcases env.download job.image_url with e | img
  · simp
  · dsimp only
    rcases env.restore img job.restoration_type with e | restored
    · simp
    · dsimp only
      rcases env.upload restored job.job_id with e | url
      · simp
      · dsimp only
        rcases job.airtable_record_id with _ | rid
        · simp
        · dsimp only
          rcases env.airtableUpdate rid "completed" url with e | u
          · simp
          · simp

/-- A restoration run never adds or removes jobs: the id list of the store is
unchanged. -/
theorem restoration_ids (env : PipeEnv) (job : Job) (store : List Job) :
    (process_restoration env job store).2.1.map (fun j => j.job_id) =
      store.map fun j => j.job_id := by
  simp only [process_restoration, fail_restoration]
  rcases env.download job.image_url with e | img
  · simp [update_job_status_ids]
  · dsimp only
    rcases env.restore img job.restoration_type with e | restored
    · simp [update_job_status_ids]
    · dsimp only
      rcases env.upload restored job.job_id with e | url
      · simp [update_job_status_ids]
      · dsimp only
        rcases job.airtable_record_id with _ | rid
        · simp [update_job_status_ids]
        · dsimp only
          rcases env.airtableUpdate rid "completed" url with e | u
          · simp [update_job_status_ids]
          · simp [update_job_status_ids]

/-- Every job carrying the processed job's id ends the run in exactly one
terminal state with the matching result kind, never both. -/
theorem restoration_terminal (env : PipeEnv) (job : Job) (store : List Job) :
    ∀ j ∈ (process_restoration env job store).2.1, j.job_id = job.job_id →
      terminal_exclusive j = true := by
  simp only [process_restoration, fail_restoration]
  rcases env.download job.image_url with e | img
  · intro j hj hid
    obtain ⟨hs, hr⟩ := update_job_status_final _ _ _ _ j hj hid
    simp [terminal_exclusive, hs, hr]
  · dsimp only
    rcases env.restore img job.restoration_type with e | restored
    · intro j hj hid
      obtain ⟨hs, hr⟩ := update_job_status_final _ _ _ _ j hj hid
      simp [terminal_exclusive, hs, hr]
    · dsimp only
      rcases env.upload restored job.job_id with e | url
      · intro j hj hid
        obtain ⟨hs, hr⟩ := update_job_status_final _ _ _ _ j hj hid
        simp [terminal_exclusive, hs, hr]
      · dsimp only
        rcases job.airtable_record_id with _ | rid
        · intro j hj hid
          obtain ⟨hs, hr⟩ := update_job_status_final _ _ _ _ j hj hid
          simp [terminal_exclusive, hs, hr]
        · dsimp only
          rcases env.airtableUpdate rid "completed" url with e | u
          · intro j hj hid
            obtain ⟨hs, hr⟩ := update_job_status_final _ _ _ _ j hj hid
            simp [terminal_exclusive, hs, hr]
          · intro j hj hid
            obtain ⟨hs, hr⟩ := update_job_status_final _ _ _ _ j hj hid
            simp [terminal_exclusive, hs, hr]

/-- A run that ends in a raised error leaves every job carrying the processed
id in status `failed`, with the error string as the only result field. -/
theorem restoration_error_final (env : PipeEnv) (job : Job) (store : List Job) (e : String)
    (h : (process_restoration env job store).1 = Except.error e) :
    ∀ j ∈ (process_restoration env job store).2.1, j.job_id = job.job_id →
      j.status = "failed" ∧ j.result = some { error := some e } := by
  simp only [process_restoration, fail_restoration] at h ⊢
  revert h
  rcases env.download job.image_url with e1 | img <;> dsimp only <;> intro h
  · simp at h
    subst h
    exact fun j hj hid => update_job_status_final _ _ _ _ j hj hid
  · revert h
    rcases env.restore img job.restoration_type with e1 | restored <;> dsimp only <;> intro h
    · simp at h
      subst h
      exact fun j hj hid => update_job_status_final _ _ _ _ j hj hid
    · revert h
      rcases env.upload restored job.job_id with e1 | url <;> dsimp only <;> intro h
      · simp at h
        subst h
        exact fun j hj hid => update_job_status_final _ _ _ _ j hj hid
      · revert h
        rcases job.airtable_record_id with _ | rid <;> dsimp only <;> intro h
        · simp at h
        · revert h
          rcases env.airtableUpdate rid "completed" url with e1 | u <;> dsimp only <;> intro h
          · simp at h
            subst h
            exact fun j hj hid => update_job_status_final _ _ _ _ j hj hid
          · simp at h

/-- The store and trace components of a single-image run: the job is created
(with its literal status `processing`), then the restoration pipeline runs. -/
theorem process_single_image_snd (env : PipeEnv) (a b c : String) (store : List Job) :
    (process_single_image env a b c store).2 =
      ((process_restoration env (mk_single_job a env.now b c)
          (add_job store (mk_single_job a env.now b c))).2.1,
       Ev.jobCreated a "processing" ::
         (process_restoration env (mk_single_job a env.now b c)
            (add_job store (mk_single_job a env.now b c))).2.2) := by
  simp only [process_single_image]
  rcases process_restoration env (mk_single_job a env.now b c)
      (add_job store (mk_single_job a env.now b c)) with ⟨res | err, store2, evs⟩ <;> rfl

/-! ## Claim theorems -/

/-- C1 counterexample: on a concrete single-image run the job record is
created with status `processing` (process.py line 39), not `queued` as the
claim states. -/
theorem single_image_created_processing_not_queued :
    (process_single_image envOKW "J1" "https://img/1.jpg" "standard" []).2.2.head? =
      some (Ev.jobCreated "J1" "processing") ∧
    (mk_single_job "J1" "2026-01-01T00:00:00" "https://img/1.jpg" "standard").status ≠
      "queued" := by
  constructor
  · rw [show (process_single_image envOKW "J1" "https://img/1.jpg" "standard" []).2.2 =
        ((process_single_image envOKW "J1" "https://img/1.jpg" "standard" []).2).2 from rfl,
      process_single_image_snd]
    rfl
  · decide

/-- C1 (amended): for every job created via the single-image API path, the
job record is created with status `processing` (not `queued` — process.py
line 39); the `processing` status update is issued before the single image
fetch; and the job ends in exactly one of `completed`/`failed`, never with
both the success result fields and the error field populated. -/
theorem single_image_lifecycle (env : PipeEnv) (job_id image_url rt : String)
    (store : List Job) :
    (process_single_image env job_id image_url rt store).2.2.take 3 =
      [Ev.jobCreated job_id "processing", Ev.statusUpdate job_id "processing",
       Ev.fetch image_url] ∧
    (process_single_image env job_id image_url rt store).2.2.countP is_fetch_ev = 1 ∧
    (∃ j ∈ (process_single_image env job_id image_url rt store).2.1, j.job_id = job_id) ∧
    (∀ j ∈ (process_single_image env job_id image_url rt store).2.1,
       j.job_id = job_id → terminal_exclusive j = true) := by
  have hsnd := process_single_image_snd env job_id image_url rt store
  have hjid : (mk_single_job job_id env.now image_url rt).job_id = job_id := rfl
  have hurl : (mk_single_job job_id env.now image_url rt).image_url = image_url := rfl
  refine ⟨?_, ?_, ?_, ?_⟩
  · rw [show (process_single_image env job_id image_url rt store).2.2 =
        ((process_single_image env job_id image_url rt store).2).2 from rfl, hsnd]
    have := restoration_trace_prefix env (mk_single_job job_id env.now image_url rt)
      (add_job store (mk_single_job job_id env.now image_url rt))
    rw [hjid, hurl] at this
    simp [List.take_succ_cons, this]
  · rw [show (process_single_image env job_id image_url rt store).2.2 =
        ((process_single_image env job_id image_url rt store).2).2 from rfl, hsnd]
    have := (restoration_call_counts env (mk_single_job job_id env.now image_url rt)
      (add_job store (mk_single_job job_id env.now image_url rt))).1
    simp [List.countP_cons, is_fetch_ev, this]
  · rw [show (process_single_image env job_id image_url rt store).2.1 =
        ((process_single_image env job_id image_url rt store).2).1 from rfl, hsnd]
    have hmem : job_id ∈ ((process_restoration env (mk_single_job job_id env.now image_url rt)
        (add_job store (mk_single_job job_id env.now image_url rt))).2.1).map
          (fun j => j.job_id) := by
      rw [restoration_ids]
      simp [add_job, hjid]
    obtain ⟨j, hj, hjeq⟩ := List.mem_map.mp hmem
    exact ⟨j, hj, hjeq⟩
  · rw [show (process_single_image env job_id image_url rt store).2.1 =
        ((process_single_image env job_id image_url rt store).2).1 from rfl, hsnd]
    intro j hj hje
    exact restoration_terminal env (mk_single_job job_id env.now image_url rt)
      (add_job store (mk_single_job job_id env.now image_url rt)) j hj (hje.trans hjid.symm)

/-- C4 counterexample: in a 2-job batch whose first job's download raises,
the second job is never attempted and stays `queued` — the batch does not
continue past the failed member as the claim states. -/
theorem batch_does_not_continue_past_failure :
    ((process_batch_background envDLFailW ["a", "b"] batchStoreW).1.map
        (fun j => (j.job_id, j.status)) = [("a", "failed"), ("b", "queued")]) ∧
    Ev.attempt "b" ∉ (process_batch_background envDLFailW ["a", "b"] batchStoreW).2 := by
  decide

/-- C4 (amended): an error inside one job's processing is converted into a
`failed` status for that job only, and the error does not propagate beyond
the batch processor — but the batch stops at the failed member: the single
try/except wraps the whole loop (process.py lines 157-164), so no job after
the failed one is attempted. -/
theorem batch_stops_at_failed_member (env : PipeEnv) (jid : String) (rest : List String)
    (store : List Job) (job : Job) (e : String)
    (hget : get_job store jid = some job)
    (herr : (process_restoration env job store).1 = Except.error e) :
    process_batch_background env (jid :: rest) store =
      ((process_restoration env job store).2.1,
       Ev.attempt jid :: (process_restoration env job store).2.2) ∧
    (∀ j ∈ (process_batch_background env (jid :: rest) store).1,
       j.job_id = jid → j.status = "failed" ∧ j.result = some { error := some e }) ∧
    (∀ x, Ev.attempt x ∈ (process_batch_background env (jid :: rest) store).2 →
       x = jid) := by
  have hjid : job.job_id = jid := by
    have h2 := List.find?_some (by simpa [get_job] using hget)
    simpa using h2
  have heq : process_batch_background env (jid :: rest) store =
      ((process_restoration env job store).2.1,
       Ev.attempt jid :: (process_restoration env job store).2.2) := by
    simp only [process_batch_background, hget]
    revert herr
    rcases process_restoration env job store with ⟨err | res, store1, evs⟩ <;>
        dsimp only <;> intro herr
    · rfl
    · simp at herr
  refine ⟨heq, ?_, ?_⟩
  · rw [heq]
    intro j hj hje
    exact restoration_error_final env job store e herr j hj (hje.trans hjid.symm)
  · rw [heq]
    intro x hx
    rcases List.mem_cons.mp hx with h1 | h2
    · simpa using h1
    · exact absurd h2 (restoration_no_attempt env job store x)

/-- C4 witness: the amended theorem applied to the concrete 2-job batch in
which the first job's download raises. -/
theorem batch_stops_at_failed_member_witness :
    process_batch_background envDLFailW ["a", "b"] batchStoreW =
      ((process_restoration envDLFailW jobAW batchStoreW).2.1,
       Ev.attempt "a" :: (process_restoration envDLFailW jobAW batchStoreW).2.2) ∧
    (∀ j ∈ (process_batch_background envDLFailW ["a", "b"] batchStoreW).1,
       j.job_id = "a" → j.status = "failed" ∧
         j.result = some { error := some "download boom" }) ∧
    (∀ x, Ev.attempt x ∈ (process_batch_background envDLFailW ["a", "b"] batchStoreW).2 →
       x = "a") :=
  batch_stops_at_failed_member envDLFailW "a" ["b"] batchStoreW jobAW "download boom"
    rfl rfl

/-- C5 counterexample: on a run whose Airtable completion push raises, the
job's status — already committed as `completed` — is overwritten to `failed`
by the generic except block, contradicting the claim that it is left
`completed`. -/
theorem airtable_failure_overwrites_completed :
    ((process_restoration envATFailW jobATW [jobATW]).2.1.map fun j => j.status) =
      ["failed"] ∧
    (process_restoration envATFailW jobATW [jobATW]).2.2 =
      [Ev.statusUpdate "J2" "processing", Ev.fetch "https://img/2.jpg", Ev.generate,
       Ev.upload "J2", Ev.statusUpdate "J2" "completed",
       Ev.recordUpdate "rec1" "completed", Ev.statusUpdate "J2" "failed"] := by
  decide

/-- C5 (amended): for a successfully restored job with an originating record
id, the pipeline pushes the completion status to the external record store
only after committing the job's own `completed` status; but a failure of that
push is caught by the pipeline's generic except block, which overwrites the
job's status to `failed` with the push error — the `completed` status is not
preserved. -/
theorem success_push_after_commit (env : PipeEnv) (job : Job) (store : List Job)
    (rid img restored url : String)
    (hrid : job.airtable_record_id = some rid)
    (hdl : env.download job.image_url = Except.ok img)
    (hres : env.restore img job.restoration_type = Except.ok restored)
    (hup : env.upload restored job.job_id = Except.ok url) :
    (process_restoration env job store).2.2.take 6 =
      [Ev.statusUpdate job.job_id "processing", Ev.fetch job.image_url, Ev.generate,
       Ev.upload job.job_id, Ev.statusUpdate job.job_id "completed",
       Ev.recordUpdate rid "completed"] ∧
    (env.airtableUpdate rid "completed" url = Except.ok () →
       ∀ j ∈ (process_restoration env job store).2.1, j.job_id = job.job_id →
         j.status = "completed" ∧
           j.result = some { result_url := some url, completed_at := some env.now }) ∧
    (∀ e, env.airtableUpdate rid "completed" url = Except.error e →
       ∀ j ∈ (process_restoration env job store).2.1, j.job_id = job.job_id →
         j.status = "failed" ∧ j.result = some { error := some e }) := by
  simp only [process_restoration, fail_restoration, hdl, hres, hup, hrid]
  rcases ha : env.airtableUpdate rid "completed" url with e1 | u <;> dsimp only
  · refine ⟨rfl, ?_, ?_⟩
    · intro hok
      simp at hok
    · intro e he j hj hje
      simp at he
      subst he
      exact update_job_status_final _ _ _ _ j hj hje
  · refine ⟨rfl, ?_, ?_⟩
    · intro _ j hj hje
      exact update_job_status_final _ _ _ _ j hj hje
    · intro e he
      simp at he

/-- C5 witness: the amended theorem applied to the concrete run whose
Airtable push raises. -/
theorem success_push_after_commit_witness :
    (process_restoration envATFailW jobATW [jobATW]).2.2.take 6 =
      [Ev.statusUpdate jobATW.job_id "processing", Ev.fetch jobATW.image_url, Ev.generate,
       Ev.upload jobATW.job_id, Ev.statusUpdate jobATW.job_id "completed",
       Ev.recordUpdate "rec1" "completed"] ∧
    (envATFailW.airtableUpdate "rec1" "completed" "https://storage/restored.jpg" =
        Except.ok () →
       ∀ j ∈ (process_restoration envATFailW jobATW [jobATW]).2.1,
         j.job_id = jobATW.job_id →
           j.status = "completed" ∧
             j.result = some { result_url := some "https://storage/restored.jpg",
                               completed_at := some envATFailW.now }) ∧
    (∀ e, envATFailW.airtableUpdate "rec1" "completed" "https://storage/restored.jpg" =
        Except.error e →
       ∀ j ∈ (process_restoration envATFailW jobATW [jobATW]).2.1,
         j.job_id = jobATW.job_id →
           j.status = "failed" ∧ j.result = some { error := some e }) :=
  success_push_after_commit envATFailW jobATW [jobATW] "rec1" "imgbytes" "restoredbytes"
    "https://storage/restored.jpg" rfl rfl rfl rfl

/-- C6 counterexample: a job originating from record `rec1` whose download
raises is marked `failed`, but no external-record update is issued — the
failure path never touches the record store, contradicting the claim. -/
theorem failure_does_not_update_record :
    (process_restoration envDLFailW jobATW [jobATW]).2.2.countP is_record_update_ev = 0 ∧
    ((process_restoration envDLFailW jobATW [jobATW]).2.1.map fun j => j.status) =
      ["failed"] ∧
    jobATW.airtable_record_id = some "rec1" := by
  decide

/-- C6 (amended): an exception in fetch, generation, or persistence marks the
job `failed` with the error message in the result and is re-raised (the job is
not retried: exactly one fetch is issued); but the external record is not
updated in the failure path — the except block only writes to the job store
(process.py lines 150-153). -/
theorem failure_marks_failed_no_record_push (env : PipeEnv) (job : Job) (store : List Job)
    (e : String)
    (h : env.download job.image_url = Except.error e ∨
         (∃ img, env.download job.image_url = Except.ok img ∧
            env.restore img job.restoration_type = Except.error e) ∨
         (∃ img restored, env.download job.image_url = Except.ok img ∧
            env.restore img job.restoration_type = Except.ok restored ∧
            env.upload restored job.job_id = Except.error e)) :
    (process_restoration env job store).1 = Except.error e ∧
    (∀ j ∈ (process_restoration env job store).2.1, j.job_id = job.job_id →
       j.status = "failed" ∧ j.result = some { error := some e }) ∧
    (process_restoration env job store).2.2.countP is_record_update_ev = 0 ∧
    (process_restoration env job store).2.2.countP is_fetch_ev = 1 := by
  have herr : (process_restoration env job store).1 = Except.error e := by
    rcases h with hd | ⟨img, hd, hr⟩ | ⟨img, restored, hd, hr, hu⟩
    · simp [process_restoration, fail_restoration, hd]
    · simp [process_restoration, fail_restoration, hd, hr]
    · simp [process_restoration, fail_restoration, hd, hr, hu]
  have hnorec : (process_restoration env job store).2.2.countP is_record_update_ev = 0 := by
    rcases h with hd | ⟨img, hd, hr⟩ | ⟨img, restored, hd, hr, hu⟩
    · simp [process_restoration, fail_restoration, hd, is_record_update_ev]
    · simp [process_restoration, fail_restoration, hd, hr, is_record_update_ev]
    · simp [process_restoration, fail_restoration, hd, hr, hu, is_record_update_ev]
  exact ⟨herr, restoration_error_final env job store e herr, hnorec,
    (restoration_call_counts env job store).1⟩

/-- C6 witness: the amended theorem applied to the concrete failing
download. -/
theorem failure_marks_failed_no_record_push_witness :
    (process_restoration envDLFailW jobATW [jobATW]).1 = Except.error "download boom" ∧
    (∀ j ∈ (process_restoration envDLFailW jobATW [jobATW]).2.1,
       j.job_id = jobATW.job_id →
         j.status = "failed" ∧ j.result = some { error := some "download boom" }) ∧
    (process_restoration envDLFailW jobATW [jobATW]).2.2.countP is_record_update_ev = 0 ∧
    (process_restoration envDLFailW jobATW [jobATW]).2.2.countP is_fetch_ev = 1 :=
  failure_marks_failed_no_record_push envDLFailW jobATW [jobATW] "download boom"
    (Or.inl rfl)

/-- C2: when a chain step fails, it is recorded as failed and exactly one
execution record is logged for it; the chain continues with the remaining
steps iff the failed step's `workflow_type` is not `Sequential` — when it is
`Sequential`, nothing further is attempted or logged.  In particular a 3-step
chain whose second step fails logs exactly 2 execution records when the
failing step is sequential and 3 when it is standalone. -/
theorem chain_failure_stops_iff_sequential :
    (∀ (gen : String → Prompt → Except String (GenResponse × Nat))
       (photo_id : String) (n i : Nat) (cur : String) (p : Prompt)
       (rest : List Prompt) (e : String), gen cur p = Except.error e →
       (p.workflow_type = "Sequential" →
          run_steps gen photo_id n i cur (p :: rest) =
            ([{ prompt_id := p.id, prompt_name := p.name, success := false,
                error := some e }], [],
             [{ prompt_id := p.id, execution_time := 0, success := false,
                notes := some e }])) ∧
       (p.workflow_type ≠ "Sequential" →
          run_steps gen photo_id n i cur (p :: rest) =
            ({ prompt_id := p.id, prompt_name := p.name, success := false,
               error := some e } :: (run_steps gen photo_id n (i + 1) cur rest).1,
             (run_steps gen photo_id n (i + 1) cur rest).2.1,
             { prompt_id := p.id, execution_time := 0, success := false,
               notes := some e } :: (run_steps gen photo_id n (i + 1) cur rest).2.2))) ∧
    (∀ (gen : String → Prompt → Except String (GenResponse × Nat))
       (photo_id cur : String) (p1 p2 p3 : Prompt),
       (∀ c, ∃ v, gen c p1 = Except.ok v) →
       (∀ c, ∃ e, gen c p2 = Except.error e) →
       p2.workflow_type = "Sequential" →
       (run_steps gen photo_id 3 0 cur [p1, p2, p3]).2.2.length = 2) ∧
    (∀ (gen : String → Prompt → Except String (GenResponse × Nat))
       (photo_id cur : String) (p1 p2 p3 : Prompt),
       (∀ c, ∃ v, gen c p1 = Except.ok v) →
       (∀ c, ∃ e, gen c p2 = Except.error e) →
       (∀ c, ∃ v, gen c p3 = Except.ok v) →
       p2.workflow_type ≠ "Sequential" →
       (run_steps gen photo_id 3 0 cur [p1, p2, p3]).2.2.length = 3) := by
  refine ⟨?_, ?_, ?_⟩
  · intro gen photo_id n i cur p rest e h
    constructor
    · intro hw
      simp [run_steps, h, hw]
    · intro hw
      have hw2 : (p.workflow_type == "Sequential") = false := by
        simp [hw]
      simp [run_steps, h, hw2]
  · intro gen photo_id cur p1 p2 p3 h1 h2 hw
    obtain ⟨⟨resp1, t1⟩, hv1⟩ := h1 cur
    obtain ⟨e2, he2⟩ :=
      h2 (chain_next_input photo_id p1 (extract_images resp1) 0 3 cur)
    simp [run_steps, hv1, he2, hw]
  · intro gen photo_id cur p1 p2 p3 h1 h2 h3 hw
    obtain ⟨⟨resp1, t1⟩, hv1⟩ := h1 cur
    obtain ⟨e2, he2⟩ :=
      h2 (chain_next_input photo_id p1 (extract_images resp1) 0 3 cur)
    obtain ⟨⟨resp3, t3⟩, hv3⟩ :=
      h3 (chain_next_input photo_id p1 (extract_images resp1) 0 3 cur)
    have hw2 : (p2.workflow_type == "Sequential") = false := by
      simp [hw]
    simp [run_steps, hv1, he2, hv3, hw2]

/-- C2 witness: the theorem applied to a concrete chain whose second step
fails: 2 execution records for the sequential chain, 3 for the standalone
chain. -/
theorem chain_failure_stops_iff_sequential_witness :
    (run_steps genFail2W "ph" 3 0 "u0" [pSeq1W, pSeq2W, pSeq3W]).2.2.length = 2 ∧
    (run_steps genFail2W "ph" 3 0 "u0" [pStd1W, pStd2W, pStd3W]).2.2.length = 3 :=
  ⟨chain_failure_stops_iff_sequential.2.1 genFail2W "ph" "u0" pSeq1W pSeq2W pSeq3W
      (fun _ => ⟨(respImgW, 1), rfl⟩) (fun _ => ⟨"gen boom", rfl⟩) rfl,
   chain_failure_stops_iff_sequential.2.2 genFail2W "ph" "u0" pStd1W pStd2W pStd3W
      (fun _ => ⟨(respImgW, 1), rfl⟩) (fun _ => ⟨"gen boom", rfl⟩)
      (fun _ => ⟨(respImgW, 1), rfl⟩) (by decide)⟩

/-- C9: a step whose generation call returns without raising but yields zero
output images is recorded with success `true` and an empty outputs list (not
as a failure), and the remaining steps run on the same input reference; the
chain input advances only when a step produced at least one image and is not
the final step. -/
theorem chain_zero_output_success :
    (∀ (gen : String → Prompt → Except String (GenResponse × Nat))
       (photo_id : String) (n i : Nat) (cur : String) (p : Prompt)
       (rest : List Prompt) (resp : GenResponse) (t : Nat),
       gen cur p = Except.ok (resp, t) → extract_images resp = [] →
       run_steps gen photo_id n i cur (p :: rest) =
         ({ prompt_id := p.id, prompt_name := p.name, execution_time := t,
            outputs := [], success := true } ::
              (run_steps gen photo_id n (i + 1) cur rest).1,
          (run_steps gen photo_id n (i + 1) cur rest).2.1,
          { prompt_id := p.id, execution_time := t, success := true } ::
            (run_steps gen photo_id n (i + 1) cur rest).2.2)) ∧
    (∀ (photo_id : String) (p : Prompt) (imgs : List String) (i n : Nat)
       (cur : String),
       chain_next_input photo_id p imgs i n cur ≠ cur →
         imgs ≠ [] ∧ i < n - 1) := by
  constructor
  · intro gen photo_id n i cur p rest resp t h hz
    simp [run_steps, h, hz, save_paths, chain_next_input]
  · intro photo_id p imgs i n cur hne
    rcases imgs with _ | ⟨im, imtl⟩
    · exact absurd rfl hne
    · by_cases hi : i < n - 1
      · exact ⟨by simp, hi⟩
      · exact absurd (by simp [chain_next_input, hi]) hne

/-- C9 witness: the theorem applied to a concrete step whose generation
returns a text-only response (zero images). -/
theorem chain_zero_output_success_witness :
    run_steps genZeroW "ph" 2 0 "u0" [pStd1W, pStd2W] =
      ({ prompt_id := pStd1W.id, prompt_name := pStd1W.name, execution_time := 5,
         outputs := [], success := true } ::
           (run_steps genZeroW "ph" 2 1 "u0" [pStd2W]).1,
       (run_steps genZeroW "ph" 2 1 "u0" [pStd2W]).2.1,
       { prompt_id := pStd1W.id, execution_time := 5, success := true } ::
         (run_steps genZeroW "ph" 2 1 "u0" [pStd2W]).2.2) :=
  chain_zero_output_success.1 genZeroW "ph" 2 0 "u0" pStd1W [pStd2W] respTextW 5
    rfl rfl

/-- A status bucket holds every member job iff all statuses equal it. -/
theorem count_status_eq_length_iff (jobs : List Job) (s : String) :
    count_status jobs s = jobs.length ↔ ∀ j ∈ jobs, j.status = s := by
  simp [count_status, List.countP_eq_length]

/-- A status bucket is nonempty iff some member job has that status. -/
theorem count_status_pos_iff (jobs : List Job) (s : String) :
    0 < count_status jobs s ↔ ∃ j ∈ jobs, j.status = s := by
  simp [count_status, List.countP_pos_iff]

/-- A status bucket is empty iff no member job has that status. -/
theorem count_status_eq_zero_iff (jobs : List Job) (s : String) :
    count_status jobs s = 0 ↔ ∀ j ∈ jobs, j.status ≠ s := by
  simp [count_status, List.countP_eq_zero]

/-- The four breakdown buckets together count exactly the jobs whose status
lies in the four-value set. -/
theorem count_status_sum (jobs : List Job) :
    count_status jobs "queued" + count_status jobs "processing" +
      count_status jobs "completed" + count_status jobs "failed" =
      jobs.countP bucket_status := by
  induction jobs with
  | nil => rfl
  | cons a l ih =>
    simp only [count_status, List.countP_cons, bucket_status] at ih ⊢
    by_cases h1 : a.status = "queued" <;> by_cases h2 : a.status = "processing" <;>
      by_cases h3 : a.status = "completed" <;> by_cases h4 : a.status = "failed" <;>
      simp_all <;> omega

/-- C3 counterexample: a batch with zero jobs yields no aggregate at all —
`get_batch_status` returns the `'Batch not found'` error (status.py line 79),
not an aggregate with `overall_status` `unknown` and progress `0`. -/
theorem batch_empty_returns_not_found : get_batch_status ([] : List Job) = none := rfl

/-- C3 (amended): for every batch that yields an aggregate — i.e. with at
least one member job; an empty batch returns the `'Batch not found'` error
instead — `overall_status` is `failed` iff all member jobs failed,
`completed` iff all completed, `processing` iff some job is queued or
processing, and `unknown` otherwise; `progress_percentage` equals
completed/total × 100 rounded to 2 decimals (66.67 for 2 of 3). -/
theorem batch_aggregate_spec (jobs : List Job) (agg : BatchAggregate)
    (h : get_batch_status jobs = some agg) :
    (agg.overall_status = "failed" ↔ ∀ j ∈ jobs, j.status = "failed") ∧
    (agg.overall_status = "completed" ↔ ∀ j ∈ jobs, j.status = "completed") ∧
    (agg.overall_status = "processing" ↔
       ∃ j ∈ jobs, j.status = "queued" ∨ j.status = "processing") ∧
    (agg.overall_status = "unknown" ↔
       ¬(∀ j ∈ jobs, j.status = "failed") ∧ ¬(∀ j ∈ jobs, j.status = "completed") ∧
         ¬∃ j ∈ jobs, j.status = "queued" ∨ j.status = "processing") ∧
    agg.progress_percentage =
      round2 (((count_status jobs "completed" : ℚ) / (jobs.length : ℚ)) * 100) ∧
    agg.total_jobs = jobs.length := by
  rcases jobs with _ | ⟨a, l⟩
  · simp [get_batch_status] at h
  · simp only [get_batch_status] at h
    injection h with h
    subst h
    have hfa := count_status_eq_length_iff (a :: l) "failed"
    have hco := count_status_eq_length_iff (a :: l) "completed"
    have hqp : (0 < count_status (a :: l) "processing" ∨
        0 < count_status (a :: l) "queued") ↔
        (∃ j ∈ a :: l, j.status = "queued" ∨ j.status = "processing") := by
      rw [count_status_pos_iff, count_status_pos_iff]
      constructor
      · rintro (⟨j, hj, hs⟩ | ⟨j, hj, hs⟩) <;> exact ⟨j, hj, by simp [hs]⟩
      · rintro ⟨j, hj, hs | hs⟩
        · exact Or.inr ⟨j, hj, hs⟩
        · exact Or.inl ⟨j, hj, hs⟩
    have hlen : (a :: l).length > 0 := by simp
    by_cases h1 : count_status (a :: l) "failed" = (a :: l).length
    · have hall := hfa.mp h1
      have hnotC : ¬(∀ j ∈ a :: l, j.status = "completed") := fun hc =>
        absurd ((hall a (List.mem_cons_self a l)).symm.trans
          (hc a (List.mem_cons_self a l))) (by decide)
      have hnotQP : ¬(∃ j ∈ a :: l, j.status = "queued" ∨ j.status = "processing") := by
        rintro ⟨j, hj, hs | hs⟩ <;> exact absurd ((hall j hj).symm.trans hs) (by decide)
      refine ⟨?_, ?_, ?_, ?_, ?_, rfl⟩ <;> dsimp only
      · rw [if_pos h1]
        exact iff_of_true rfl hall
      · rw [if_pos h1]
        exact iff_of_false (by decide) hnotC
      · rw [if_pos h1]
        exact iff_of_false (by decide) hnotQP
      · rw [if_pos h1]
        exact iff_of_false (by decide) fun hk => hk.1 hall
      · rw [if_pos hlen]
    · by_cases h2 : count_status (a :: l) "completed" = (a :: l).length
      · have hall := hco.mp h2
        have hnotF : ¬(∀ j ∈ a :: l, j.status = "failed") := fun hf => h1 (hfa.mpr hf)
        have hnotQP : ¬(∃ j ∈ a :: l, j.status = "queued" ∨ j.status = "processing") := by
          rintro ⟨j, hj, hs | hs⟩ <;> exact absurd ((hall j hj).symm.trans hs) (by decide)
        refine ⟨?_, ?_, ?_, ?_, ?_, rfl⟩ <;> dsimp only
        · rw [if_neg h1, if_pos h2]
          exact iff_of_false (by decide) hnotF
        · rw [if_neg h1, if_pos h2]
          exact iff_of_true rfl hall
        · rw [if_neg h1, if_pos h2]
          exact iff_of_false (by decide) hnotQP
        · rw [if_neg h1, if_pos h2]
          exact iff_of_false (by decide) fun hk => hk.2.1 hall
        · rw [if_pos hlen]
      · by_cases h3 : 0 < count_status (a :: l) "processing" ∨
            0 < count_status (a :: l) "queued"
        · refine ⟨?_, ?_, ?_, ?_, ?_, rfl⟩ <;> dsimp only
          · rw [if_neg h1, if_neg h2, if_pos h3]
            exact iff_of_false (by decide) fun hf => h1 (hfa.mpr hf)
          · rw [if_neg h1, if_neg h2, if_pos h3]
            exact iff_of_false (by decide) fun hc => h2 (hco.mpr hc)
          · rw [if_neg h1, if_neg h2, if_pos h3]
            exact iff_of_true rfl (hqp.mp h3)
          · rw [if_neg h1, if_neg h2, if_pos h3]
            exact iff_of_false (by decide) fun hk => hk.2.2 (hqp.mp h3)
          · rw [if_pos hlen]
        · refine ⟨?_, ?_, ?_, ?_, ?_, rfl⟩ <;> dsimp only
          · rw [if_neg h1, if_neg h2, if_neg h3]
            exact iff_of_false (by decide) fun hf => h1 (hfa.mpr hf)
          · rw [if_neg h1, if_neg h2, if_neg h3]
            exact iff_of_false (by decide) fun hc => h2 (hco.mpr hc)
          · rw [if_neg h1, if_neg h2, if_neg h3]
            exact iff_of_false (by decide) fun hex => h3 (hqp.mpr hex)
          · rw [if_neg h1, if_neg h2, if_neg h3]
            exact iff_of_true rfl ⟨fun hf => h1 (hfa.mpr hf), fun hc => h2 (hco.mpr hc),
              fun hex => h3 (hqp.mpr hex)⟩
          · rw [if_pos hlen]

/-- C3 witness: the amended theorem applied to a concrete 3-job batch with 2
completed members; its aggregate carries progress 66.67. -/
theorem batch_aggregate_spec_witness :
    (aggW3.overall_status = "failed" ↔ ∀ j ∈ jobsW3, j.status = "failed") ∧
    (aggW3.overall_status = "completed" ↔ ∀ j ∈ jobsW3, j.status = "completed") ∧
    (aggW3.overall_status = "processing" ↔
       ∃ j ∈ jobsW3, j.status = "queued" ∨ j.status = "processing") ∧
    (aggW3.overall_status = "unknown" ↔
       ¬(∀ j ∈ jobsW3, j.status = "failed") ∧ ¬(∀ j ∈ jobsW3, j.status = "completed") ∧
         ¬∃ j ∈ jobsW3, j.status = "queued" ∨ j.status = "processing") ∧
    aggW3.progress_percentage =
      round2 (((count_status jobsW3 "completed" : ℚ) / (jobsW3.length : ℚ)) * 100) ∧
    aggW3.total_jobs = jobsW3.length :=
  batch_aggregate_spec jobsW3 aggW3 (by
    have step : get_batch_status jobsW3 =
        some { overall_status := "processing",
               progress_percentage := round2 (((2 : ℕ) : ℚ) / ((3 : ℕ) : ℚ) * 100),
               total_jobs := 3, queued_count := 1, processing_count := 0,
               completed_count := 2, failed_count := 0 } := rfl
    rw [step]
    simp only [Option.some.injEq, BatchAggregate.mk.injEq, aggW3, and_true, true_and]
    rw [round2]
    push_cast
    norm_num)

/-- C10: in every batch aggregate the four breakdown buckets sum to at most
`total_jobs`, with equality exactly when every member's status lies in the
four-value set; a job with any other status (e.g. `cancelled`) is counted in
`total_jobs` but in no bucket, and a batch whose jobs all have such statuses
reports `overall_status` `unknown`. -/
theorem batch_breakdown_invariant (jobs : List Job) (agg : BatchAggregate)
    (h : get_batch_status jobs = some agg) :
    agg.queued_count + agg.processing_count + agg.completed_count + agg.failed_count ≤
      agg.total_jobs ∧
    (agg.queued_count + agg.processing_count + agg.completed_count + agg.failed_count =
        agg.total_jobs ↔ ∀ j ∈ jobs, bucket_status j = true) ∧
    ((∀ j ∈ jobs, bucket_status j = false) → agg.overall_status = "unknown") := by
  rcases jobs with _ | ⟨a, l⟩
  · simp [get_batch_status] at h
  · simp only [get_batch_status] at h
    injection h with h
    subst h
    refine ⟨?_, ?_, ?_⟩ <;> dsimp only
    · rw [count_status_sum]
      exact List.countP_le_length _
    · rw [count_status_sum]
      exact List.countP_eq_length
    · intro hall
      have h4 : ∀ j ∈ a :: l, j.status ≠ "queued" ∧ j.status ≠ "processing" ∧
          j.status ≠ "completed" ∧ j.status ≠ "failed" := by
        intro j hj
        have hb := hall j hj
        simp [bucket_status] at hb
        tauto
      rw [(count_status_eq_zero_iff (a :: l) "failed").mpr fun j hj => (h4 j hj).2.2.2,
        (count_status_eq_zero_iff (a :: l) "completed").mpr fun j hj => (h4 j hj).2.2.1,
        (count_status_eq_zero_iff (a :: l) "processing").mpr fun j hj => (h4 j hj).2.1,
        (count_status_eq_zero_iff (a :: l) "queued").mpr fun j hj => (h4 j hj).1]
      rw [if_neg (by simp), if_neg (by simp), if_neg (by simp)]

/-- C10 witness: the theorem applied to a concrete 2-job batch whose members
are both `cancelled`. -/
theorem batch_breakdown_invariant_witness :
    aggCancelledW.queued_count + aggCancelledW.processing_count +
        aggCancelledW.completed_count + aggCancelledW.failed_count ≤
      aggCancelledW.total_jobs ∧
    (aggCancelledW.queued_count + aggCancelledW.processing_count +
        aggCancelledW.completed_count + aggCancelledW.failed_count =
        aggCancelledW.total_jobs ↔ ∀ j ∈ jobsCancelledW, bucket_status j = true) ∧
    ((∀ j ∈ jobsCancelledW, bucket_status j = false) →
       aggCancelledW.overall_status = "unknown") :=
  batch_breakdown_invariant jobsCancelledW aggCancelledW (by
    have step : get_batch_status jobsCancelledW =
        some { overall_status := "unknown",
               progress_percentage := round2 (((0 : ℕ) : ℚ) / ((2 : ℕ) : ℚ) * 100),
               total_jobs := 2, queued_count := 0, processing_count := 0,
               completed_count := 0, failed_count := 0 } := rfl
    rw [step]
    simp only [Option.some.injEq, BatchAggregate.mk.injEq, aggCancelledW, and_true,
      true_and]
    rw [round2]
    push_cast
    norm_num)

/-- C7: when a webhook secret is configured, a signature that differs from
the hex HMAC-SHA256 of the raw body under the secret is answered with
HTTP 401 and no job is created (the store is returned unchanged); when no
secret is configured, verification is skipped and every signature is
accepted. -/
theorem webhook_signature_gate :
    (∀ (hmacSha256Hex : String → String → String) (secret body sig record_id : String)
       (atts : List Attachment) (rt pr now : String) (store : List Job),
       sig ≠ hmacSha256Hex secret body →
       webhook_post hmacSha256Hex (some secret) body sig record_id atts rt pr now store =
         (401, store)) ∧
    (∀ (hmacSha256Hex : String → String → String) (body sig : String),
       verify_webhook_signature hmacSha256Hex none body sig = true) := by
  constructor
  · intro hmacSha256Hex secret body sig record_id atts rt pr now store hne
    simp [webhook_post, verify_webhook_signature, hne]
  · intro hmacSha256Hex body sig
    rfl

/-- C7 witness: the theorem applied to a concrete bad signature. -/
theorem webhook_signature_gate_witness :
    webhook_post hmacW (some "sec") "payload" "badsig" "recA" [attW] "standard"
      "normal" "T0" [] = (401, []) :=
  webhook_signature_gate.1 hmacW "sec" "payload" "badsig" "recA" [attW] "standard"
    "normal" "T0" [] (by decide)

/-- C8 counterexample: two distinct creation events for the same attachment
of the same record (exactly what a reprocess performs) produce the identical
job id `recA_att1`, not distinct ids as the claim states. -/
theorem webhook_job_id_reused :
    ((process_attachment "recA" attW "standard" "normal" "T2"
        (process_attachment "recA" attW "standard" "normal" "T1" [])).map
      fun j => j.job_id) = ["recA_att1", "recA_att1"] := by
  decide

/-- Helper for the C8 witness: the fixture uuid supply is injective. -/
theorem uuidW_injective : Function.Injective uuidW := by
  intro a b h
  have h2 := congrArg (fun s => s.data.length) h
  simpa [uuidW] using h2

/-- C8 (amended): the single-image and batch paths generate each job id
freshly via uuid4 (modelled as an injective supply), so two distinct creation
events there carry distinct job ids and a batch's job-id list has no
duplicates; but the webhook attachment path derives the job id
deterministically as `record_id ++ "_" ++ attachment_id`, so reprocessing the
same attachment of the same record produces a job with the same job id. -/
theorem job_id_generation (uuid : Nat → String) (hinj : Function.Injective uuid) :
    (∀ (now : String) (images : List (String × String)) (store : List Job),
       ((process_batch uuid now images store).1).Nodup) ∧
    (∀ (i j : Nat) (n1 n2 u1 u2 r1 r2 : String), i ≠ j →
       (mk_single_job (uuid i) n1 u1 r1).job_id ≠
         (mk_single_job (uuid j) n2 u2 r2).job_id) ∧
    (∀ (rid : String) (att : Attachment) (rt1 pr1 n1 rt2 pr2 n2 : String),
       (mk_attachment_job rid att rt1 pr1 n1).job_id =
         (mk_attachment_job rid att rt2 pr2 n2).job_id) := by
  refine ⟨?_, ?_, ?_⟩
  · intro now images store
    have hids : (process_batch uuid now images store).1 =
        (List.range images.length).map fun k => uuid (k + 1) := by
      simp only [process_batch, List.map_map]
      rw [← List.enum_map_fst images, List.map_map]
      rfl
    rw [hids]
    exact List.Nodup.map (fun a b hab => Nat.succ_injective (hinj hab))
      (List.nodup_range images.length)
  · intro i j n1 n2 u1 u2 r1 r2 hij
    simp only [mk_single_job]
    exact fun he => hij (hinj he)
  · intro rid att rt1 pr1 n1 rt2 pr2 n2
    rfl

/-- C8 witness: the amended theorem applied to the fixture uuid supply, a
concrete 2-image batch, two concrete single-image creations, and a concrete
reprocessed attachment. -/
theorem job_id_generation_witness :
    ((process_batch uuidW "T0" imagesW []).1).Nodup ∧
    (mk_single_job (uuidW 1) "T1" "u1" "standard").job_id ≠
      (mk_single_job (uuidW 2) "T2" "u2" "standard").job_id ∧
    (mk_attachment_job "recA" attW "standard" "normal" "T1").job_id =
      (mk_attachment_job "recA" attW "standard" "normal" "T2").job_id :=
  ⟨(job_id_generation uuidW uuidW_injective).1 "T0" imagesW [],
   (job_id_generation uuidW uuidW_injective).2.1 1 2 "T1" "T2" "u1" "u2" "standard"
     "standard" (by decide),
   (job_id_generation uuidW uuidW_injective).2.2 "recA" attW "standard" "normal" "T1"
     "standard" "normal" "T2"⟩

end ArchiveRestoration
